import Mathlib

/-!
Verification development for the guest-side embed runtime of
`packages/embeds/embed-core/src/embed-iframe.ts`.

JavaScript objects that serve as string-keyed maps (style configs, the
react-setter registry) are modelled as association lists with unique keys,
looked up by `lookupA`; the object-spread operation `\x7b...a, ...b\x7d` is
modelled by `jsSpread`. JavaScript `null`/`undefined` string values are
modelled as `Option String` with `none` for both, and JavaScript string
truthiness (`if (s)`) as `jsTruthy`.
-/

/-- Lookup in an association list (first match wins; keys are kept unique by
the update functions below, mirroring a JavaScript object). -/
def lookupA {α : Type} (m : List (String × α)) (k : String) : Option α :=
  match m with
  | [] => none
  | (k1, v) :: rest => if k1 = k then some v else lookupA rest k

/-- Model of JavaScript object spread `\x7b...a, ...b\x7d`: keys of `b`
override keys of `a`. -/
def jsSpread {α : Type} (a b : List (String × α)) : List (String × α) :=
  a.filter (fun p => (lookupA b p.1).isNone) ++ b

/-- Model of a JavaScript property assignment `m[k] = v`: replaces the value
at an existing key in place, otherwise appends the new key. -/
def setAssoc {α : Type} (m : List (String × α)) (k : String) (v : α) :
    List (String × α) :=
  match m with
  | [] => [(k, v)]
  | (k1, v1) :: rest =>
    if k1 = k then (k, v) :: rest else (k1, v1) :: setAssoc rest k v

/-- Model of JavaScript `delete m[k]`. -/
def removeAssoc {α : Type} (m : List (String × α)) (k : String) :
    List (String × α) :=
  m.filter (fun p => p.1 ≠ k)

/-- JavaScript truthiness of a nullable string: `null`/`undefined` and the
empty string are falsy, every other string is truthy. -/
def jsTruthy : Option String → Bool
  | none => false
  | some s => s ≠ ""

/-- A partial style attribute set for one target, e.g.
`[("background", "red")]` (source: the per-target `Pick<CSSProperties, ...>`
slices of `EmbedStyles`). -/
abbrev StyleSlice := List (String × String)

/-- A style configuration: target name to style slice (source: the
`EmbedStyles` / `EmbedStylesBranding` record). -/
abbrev StyleConfig := List (String × StyleSlice)

/-- The query parameters of the guest document's URL that the runtime
consumes (source: `url.searchParams.get(...)` call sites). -/
structure EmbedUrl where
  embed : Option String
  theme : Option String
  prerender : Option String
deriving DecidableEq, Repr

/-- The singleton mutable store of the guest document (source: `embedStore`).
The react-setter registry maps each registered target name to the current
local state of its React style setter. -/
structure EmbedStore where
  styles : StyleConfig
  «namespace» : Option String
  theme : Option String
  reactStylesStateSetters : List (String × StyleConfig)
  parentInformedAboutContentHeight : Bool
  windowLoadEventFired : Bool
deriving DecidableEq, Repr

/-- The initial value of `embedStore` at document load. -/
def initialEmbedStore : EmbedStore :=
  { styles := []
    «namespace» := none
    theme := none
    reactStylesStateSetters := []
    parentInformedAboutContentHeight := false
    windowLoadEventFired := false }

/-- Source: `isValidNamespace` — a namespace is valid unless it is
`undefined` or `null` (the empty string is valid). -/
def isValidNamespace (ns : Option String) : Bool :=
  ns.isSome

/-- Source: `getNamespace` — returns the cached namespace when it is valid,
otherwise parses the `embed` query parameter from the current URL and stores
the parse result (possibly `null`) before returning it. -/
def getNamespace (store : EmbedStore) (url : EmbedUrl) :
    Option String × EmbedStore :=
  if isValidNamespace store.«namespace» then (store.«namespace», store)
  else (url.embed, { store with «namespace» := url.embed })

/-- Source: `isEmbed` — the document is embedded iff the resolved namespace
is valid; resolving may update the store. -/
def isEmbed (store : EmbedStore) (url : EmbedUrl) : Bool × EmbedStore :=
  let r := getNamespace store url
  (isValidNamespace r.1, r.2)

/-- Source: `useEmbedTheme` — returns the cached theme when it is truthy,
otherwise stores and returns the router's `theme` query value (which may be
absent). -/
def useEmbedTheme (store : EmbedStore) (queryTheme : Option String) :
    Option String × EmbedStore :=
  if jsTruthy store.theme then (store.theme, store)
  else (queryTheme, { store with theme := queryTheme })

/-- Source: `setEmbedStyles` — replaces the stored style config with the new
one, then invokes every registered React setter with an updater that spreads
the new config over that setter's previous state. Returns the updated store
and the list of target names whose setters were invoked. -/
def setEmbedStyles (store : EmbedStore) (stylesConfig : StyleConfig) :
    EmbedStore × List String :=
  ({ store with
      styles := stylesConfig
      reactStylesStateSetters :=
        store.reactStylesStateSetters.map
          (fun p => (p.1, jsSpread p.2 stylesConfig)) },
   store.reactStylesStateSetters.map (fun p => p.1))

/-- Source: `registerNewSetter` — stores the setter under the target name
(replacing any prior registration) and immediately invokes it with the
current stored styles, so the setter's local state becomes `store.styles`. -/
def registerNewSetter (store : EmbedStore) (elementName : String) :
    EmbedStore :=
  { store with
      reactStylesStateSetters :=
        setAssoc store.reactStylesStateSetters elementName store.styles }

/-- Source: `removeFromEmbedStylesSetterMap` — deletes the target's setter
registration. -/
def removeFromEmbedStylesSetterMap (store : EmbedStore)
    (elementName : String) : EmbedStore :=
  { store with
      reactStylesStateSetters :=
        removeAssoc store.reactStylesStateSetters elementName }

/-- A ui instruction's argument (source: interface `UiConfig`). -/
structure UiConfig where
  theme : Option String
  styles : StyleConfig
deriving DecidableEq, Repr

/-- The slice of DOM state the runtime mutates directly (body background and
body visibility, source: `document.body.style` assignments). -/
structure DomState where
  bodyBackground : Option String
  bodyVisible : Bool
deriving DecidableEq, Repr

/-- Source: `unhideBody` — makes the document body visible. -/
def unhideBody (dom : DomState) : DomState :=
  { dom with bodyVisible := true }

/-- The `background` attribute of the `body` target of a style config,
as read by `stylesConfig.body?.background`. -/
def bodyBackgroundOf (cfg : StyleConfig) : Option String :=
  match lookupA cfg "body" with
  | none => none
  | some slice => lookupA slice "background"

/-- Source: the post-guard part of `methods.ui` — if the config carries a
truthy body background it is written to the DOM directly (the body is not
React-rendered), then the whole style config is handed to
`setEmbedStyles`. Returns the updated store, the updated DOM and the list
of invoked setter targets. -/
def uiApply (store : EmbedStore) (dom : DomState) (uiConfig : UiConfig) :
    EmbedStore × DomState × List String :=
  let stylesConfig := uiConfig.styles
  let dom2 :=
    if jsTruthy (bodyBackgroundOf stylesConfig) then
      { dom with bodyBackground := bodyBackgroundOf stylesConfig }
    else dom
  let r := setEmbedStyles store stylesConfig
  (r.1, dom2, r.2)

/-- Outcome of one invocation of `methods.ui` against the current value of
the global `window.CalComPlan` flag. -/
inductive UiStepOutcome where
  | dropped
  | deferred
  | applied
deriving DecidableEq, Repr

/-- Source: the guard prefix of `methods.ui` — a truthy plan other than
"PRO" drops the instruction (logged only); a falsy plan defers it to the
next animation frame; the plan "PRO" lets it through. -/
def uiMethodStep (plan : Option String) : UiStepOutcome :=
  if jsTruthy plan && plan != some "PRO" then .dropped
  else if !jsTruthy plan then .deferred
  else .applied

/-- Source: the self-rescheduling behaviour of `methods.ui` — runs the
instruction against the sequence of `window.CalComPlan` values observed on
successive animation frames; stops at the first frame where the instruction
is dropped or applied. Returns the final store, DOM, and the number of times
the style payload was applied. An exhausted observation list means the
instruction is still deferred. -/
def runUiMethod (store : EmbedStore) (dom : DomState) (uiConfig : UiConfig) :
    List (Option String) → EmbedStore × DomState × Nat
  | [] => (store, dom, 0)
  | plan :: rest =>
    match uiMethodStep plan with
    | .dropped => (store, dom, 0)
    | .applied =>
      let r := uiApply store dom uiConfig
      (r.1, r.2.1, 1)
    | .deferred => runUiMethod store dom uiConfig rest

/-- A JavaScript value as far as the message listener inspects it. -/
inductive JsVal where
  | vstr (s : String)
  | vnum (n : Nat)
  | vbool (b : Bool)
  | vnull
  | vundef
deriving DecidableEq, Repr

/-- An inbound window message's fields as read by the listener. -/
structure InMessage where
  originator : JsVal
  method : JsVal
deriving DecidableEq, Repr

/-- A handler of the `methods` registry. -/
inductive MethodCall where
  | ui
  | parentKnowsIframeReady
deriving DecidableEq, Repr

/-- What the JavaScript property read `methods[m]` can evaluate to on the
plain object literal `methods`: an own handler, a member inherited from
`Object.prototype` through the prototype chain, or `undefined`. The
inherited members are split by what the listener's call
`methods[m]?.(data.arg)` then does: the accessor `__proto__` yields
`Object.prototype` itself, which is not callable, so the call throws a
TypeError; `__defineGetter__` / `__defineSetter__` are functions that throw
a TypeError because their second parameter (the getter or setter) is
`undefined` in a one-argument call; the remaining inherited functions run
without observable effect. -/
inductive MethodsProp where
  | own (h : MethodCall)
  | protoNonCallable
  | protoRejectsArg
  | protoHarmless
  | absent
deriving DecidableEq, Repr

/-- The inherited `Object.prototype` member that is not a function. -/
def objectPrototypeNonCallableNames : List String :=
  ["__proto__"]

/-- The inherited `Object.prototype` functions that throw a TypeError when
called with a single, non-function argument. -/
def objectPrototypeArgRejectingNames : List String :=
  ["__defineGetter__", "__defineSetter__"]

/-- The inherited `Object.prototype` functions whose one-argument call
returns without observable effect. -/
def objectPrototypeHarmlessNames : List String :=
  ["constructor", "hasOwnProperty", "isPrototypeOf",
   "propertyIsEnumerable", "toLocaleString", "toString", "valueOf",
   "__lookupGetter__", "__lookupSetter__"]

/-- Source + JavaScript semantics: the property read `methods[m]` resolves
the two own keys of the `methods` object literal first and otherwise walks
the prototype chain to `Object.prototype`; only a name found nowhere on
the chain evaluates to `undefined`. -/
def methodsLookup (m : String) : MethodsProp :=
  if m = "ui" then .own .ui
  else if m = "parentKnowsIframeReady" then .own .parentKnowsIframeReady
  else if m ∈ objectPrototypeNonCallableNames then .protoNonCallable
  else if m ∈ objectPrototypeArgRejectingNames then .protoRejectsArg
  else if m ∈ objectPrototypeHarmlessNames then .protoHarmless
  else .absent

/-- Every property name that `methods[m]` can resolve, own keys and
prototype chain together. -/
def methodsObjectPropertyNames : List String :=
  "ui" :: "parentKnowsIframeReady" ::
    (objectPrototypeNonCallableNames ++ objectPrototypeArgRejectingNames ++
      objectPrototypeHarmlessNames)

/-- Observable outcome of delivering one window message to the listener. -/
inductive DispatchOutcome where
  | ignored
  | dispatched (h : MethodCall)
  | inheritedNoOp
  | raised
deriving DecidableEq, Repr

/-- Source: the window `message` listener — a missing payload is ignored,
as is any message whose `originator` is not exactly "CAL" or whose
`method` is not a string. Otherwise `methods[method]?.(data.arg)` runs:
the optional call is a no-op only when the property read yields
`undefined`; an own handler is dispatched; an inherited harmless function
runs without observable effect; and an inherited non-callable value or
argument-rejecting function makes the call throw a TypeError, which
escapes the listener. -/
def handleMessage (data : Option InMessage) : DispatchOutcome :=
  match data with
  | none => .ignored
  | some d =>
    match d.method with
    | JsVal.vstr m =>
      if d.originator = JsVal.vstr "CAL" then
        match methodsLookup m with
        | .own h => .dispatched h
        | .protoNonCallable => .raised
        | .protoRejectsArg => .raised
        | .protoHarmless => .inheritedNoOp
        | .absent => .ignored
      else .ignored
    | _ => .ignored

/-- The ready-handshake observable state: body visibility plus how many
times `linkReady` has been fired. -/
structure HandshakeState where
  bodyVisible : Bool
  linkReadyCount : Nat
deriving DecidableEq, Repr

/-- Source: `tryInformingLinkReady` inside `methods.parentKnowsIframeReady`
— the loop wakes via `runAsap`, reads
`embedStore.parentInformedAboutContentHeight` (the list holds the value
observed at each wake-up), reschedules while it is false, and on the first
true observation unhides the body on the next paint frame, fires
`linkReady` once, and does not reschedule. An exhausted list means the loop
is still polling. -/
def tryInformingLinkReady (s : HandshakeState) :
    List Bool → HandshakeState
  | [] => s
  | informed :: rest =>
    if !informed then tryInformingLinkReady s rest
    else { bodyVisible := true, linkReadyCount := s.linkReadyCount + 1 }

/-- One dimension-changed event payload (source: the
`sdkActionManager.fire("dimension-changed", ...)` detail). -/
structure DimEvent where
  iframeHeight : Nat
  iframeWidth : Nat
  isFirstTime : Bool
deriving DecidableEq, Repr

/-- One wake-up's document measurements (source: the four
`document.documentElement` size reads in `informAboutScroll`). -/
structure Measurement where
  scrollHeight : Nat
  scrollWidth : Nat
  offsetHeight : Nat
  offsetWidth : Nat
deriving DecidableEq, Repr

/-- The state of the `keepParentInformedAboutDimensionChanges` loop: its
closure variables, the emitted events, and whether the runaway guard fired
(`stopped` means the loop no longer reschedules, `warned` that the
diagnostic warning was printed). -/
structure WatcherState where
  knownIframeHeight : Option Nat
  numDimensionChanges : Nat
  isFirstTime : Bool
  parentInformed : Bool
  windowLoadEvents : Nat
  windowLoadEventFired : Bool
  events : List DimEvent
  warned : Bool
  stopped : Bool
deriving DecidableEq, Repr

/-- The watcher's closure state at the first wake-up. -/
def initWatcherState : WatcherState :=
  { knownIframeHeight := none
    numDimensionChanges := 0
    isFirstTime := true
    parentInformed := false
    windowLoadEvents := 0
    windowLoadEventFired := false
    events := []
    warned := false
    stopped := false }

/-- Source: the measuring body of `informAboutScroll`, executed once per
wake-up after the document-complete and paint-settled gates have passed
(those gates only delay wake-ups, they do not change the emission logic).
Fires `windowLoadComplete` once, samples the document, uses scroll size on
the first sample and offset size afterwards, marks the parent informed,
emits `dimension-changed` when the height differs from the last reported
one, and stops rescheduling with a warning once the change counter exceeds
50. A stopped loop ignores further wake-ups. -/
def informAboutScroll (s : WatcherState) (m : Measurement) : WatcherState :=
  if s.stopped then s
  else
    let s0 :=
      if !s.windowLoadEventFired then
        { s with windowLoadEvents := s.windowLoadEvents + 1
                 windowLoadEventFired := true }
      else s
    let iframeHeight := if s0.isFirstTime then m.scrollHeight else m.offsetHeight
    let iframeWidth := if s0.isFirstTime then m.scrollWidth else m.offsetWidth
    let s1 := { s0 with parentInformed := true }
    let s2 :=
      if s1.knownIframeHeight ≠ some iframeHeight then
        { s1 with
            knownIframeHeight := some iframeHeight
            numDimensionChanges := s1.numDimensionChanges + 1
            events := s1.events ++
              [{ iframeHeight := iframeHeight
                 iframeWidth := iframeWidth
                 isFirstTime := s1.isFirstTime }] }
      else s1
    let s3 := { s2 with isFirstTime := false }
    if 50 < s3.numDimensionChanges then
      { s3 with warned := true, stopped := true }
    else s3

/-- Runs the watcher loop from a given state over a list of per-wake-up
measurements. -/
def runWatcherFrom (s : WatcherState) : List Measurement → WatcherState
  | [] => s
  | m :: ms => runWatcherFrom (informAboutScroll s m) ms

/-- Source: `keepParentInformedAboutDimensionChanges` — the whole loop run
from its initial closure state. -/
def runWatcher (ms : List Measurement) : WatcherState :=
  runWatcherFrom initWatcherState ms

/-- An outbound protocol message (source: `messageParent`'s
`postMessage` payload, with the forwarded event detail abstracted to the
event name). -/
structure OutboundMessage where
  originator : String
  detail : String
deriving DecidableEq, Repr

/-- Source: `messageParent` — wraps a payload with the protocol tag. -/
def messageParent (detail : String) : OutboundMessage :=
  { originator := "CAL", detail := detail }

/-- The observable outcome of the bootstrap block at the bottom of the
file: whether the embed protocol was initialized, whether `unhideBody` ran
at bootstrap, whether the message listener and the outward event-bus
forwarder were installed, whether the dimension watcher was started, the
events fired synchronously at bootstrap, the protocol messages those
events caused, and the resulting store. -/
structure BootResult where
  initialized : Bool
  unhideBodyCalled : Bool
  listenerInstalled : Bool
  watcherStarted : Bool
  eventsFired : List String
  messagesSent : List OutboundMessage
  finalStore : EmbedStore
deriving DecidableEq, Repr

/-- Source: the `if (isBrowser)` bootstrap block — when `prerender` is
"true" the guard short-circuits before `isEmbed()` and nothing happens;
when not embedded nothing happens either (the namespace parse may still
cache); otherwise the body is unhidden only for a top-level window, the
event forwarder and message listener are installed, and depending on the
falsy-or-"200" page status either the watcher starts and `iframeReady`
fires, or `linkFailed` fires. Every fired event is forwarded to the parent
by the installed forwarder. -/
def bootstrap (store : EmbedStore) (url : EmbedUrl) (isTop : Bool)
    (pageStatus : Option String) : BootResult :=
  if url.prerender = some "true" then
    { initialized := false
      unhideBodyCalled := false
      listenerInstalled := false
      watcherStarted := false
      eventsFired := []
      messagesSent := []
      finalStore := store }
  else
    let r := isEmbed store url
    if !r.1 then
      { initialized := false
        unhideBodyCalled := false
        listenerInstalled := false
        watcherStarted := false
        eventsFired := []
        messagesSent := []
        finalStore := r.2 }
    else
      let statusOk := !jsTruthy pageStatus || pageStatus = some "200"
      let fired := if statusOk then ["iframeReady"] else ["linkFailed"]
      { initialized := true
        unhideBodyCalled := isTop
        listenerInstalled := true
        watcherStarted := statusOk
        eventsFired := fired
        messagesSent := fired.map messageParent
        finalStore := r.2 }

/-- One operation on the embed state store, covering every code path of the
source that mutates `embedStore`. -/
inductive StoreOp where
  | resolveNamespace (url : EmbedUrl)
  | resolveTheme (queryTheme : Option String)
  | broadcastStyles (cfg : StyleConfig)
  | register (name : String)
  | unregister (name : String)
deriving DecidableEq, Repr

/-- Applies one store operation and keeps the resulting store. -/
def applyStoreOp (s : EmbedStore) : StoreOp → EmbedStore
  | .resolveNamespace u => (getNamespace s u).2
  | .resolveTheme q => (useEmbedTheme s q).2
  | .broadcastStyles cfg => (setEmbedStyles s cfg).1
  | .register n => registerNewSetter s n
  | .unregister n => removeFromEmbedStylesSetterMap s n

/-- Applies a sequence of store operations in order. -/
def applyStoreOps (s : EmbedStore) (ops : List StoreOp) : EmbedStore :=
  ops.foldl applyStoreOp s

/-- The merge operation the specification attributes to `broadcast`: a
shallow merge per target with last-write-wins per attribute. This
definition follows the words of the spec, for comparison with the source
function `setEmbedStyles`, which does not merge. -/
def broadcastMergeSpec (old new : StyleConfig) : StyleConfig :=
  old.filter (fun p => (lookupA new p.1).isNone) ++
    new.map (fun p => (p.1, jsSpread ((lookupA old p.1).getD []) p.2))

/-- The watcher loop invariant: the emitted events are counted by the
change counter, the counter never passes 51, and the loop is stopped (and
has warned) exactly when the counter has exceeded the cap of 50. -/
def WatcherInv (s : WatcherState) : Prop :=
  s.events.length = s.numDimensionChanges ∧
  s.numDimensionChanges ≤ 51 ∧
  (s.stopped = true ↔ 50 < s.numDimensionChanges) ∧
  s.warned = s.stopped

/-- The height sequence of claim C2, with scroll and offset sizes agreeing
and a constant width of 400. -/
def seqC2 : List Measurement :=
  [500, 500, 500, 800].map (fun h =>
    { scrollHeight := h, scrollWidth := 400
      offsetHeight := h, offsetWidth := 400 })

/-- A run of 60 wake-ups whose measured height changes on every sample. -/
def seqC1 : List Measurement :=
  (List.range 60).map (fun i =>
    { scrollHeight := 500 + i, scrollWidth := 400
      offsetHeight := 500 + i, offsetWidth := 400 })

/-- One more measurement, used to exercise a stopped watcher. -/
def extraMeasurement : Measurement :=
  { scrollHeight := 999, scrollWidth := 400
    offsetHeight := 999, offsetWidth := 400 }

/-- A document URL with no query parameters. -/
def urlNoParams : EmbedUrl :=
  { embed := none, theme := none, prerender := none }

/-- A document URL carrying an embed namespace "foo". -/
def urlEmbedFoo : EmbedUrl :=
  { embed := some "foo", theme := none, prerender := none }

/-- A document URL carrying an embed namespace "abc" and no prerender
parameter. -/
def urlEmbedAbc : EmbedUrl :=
  { embed := some "abc", theme := none, prerender := none }

/-- A document URL carrying both an embed namespace and prerender=true. -/
def urlPrerender : EmbedUrl :=
  { embed := some "abc", theme := none, prerender := some "true" }

/-- A store whose stored styles and single registered setter both carry a
red body background, used against claim C3. -/
def exStoreC3 : EmbedStore :=
  { initialEmbedStore with
      styles := [("body", [("background", "red")])]
      reactStylesStateSetters := [("body", [("body", [("background", "red")])])] }

/-- A broadcast payload touching only the list-item target, used against
claim C3. -/
def exCfgC3 : StyleConfig :=
  [("eventTypeListItem", [("color", "green")])]

/-- A ui instruction payload that sets a blue body background. -/
def exUiConfig : UiConfig :=
  { theme := none, styles := [("body", [("background", "blue")])] }

/-- Lookup distributes over append: the left list wins. -/
theorem lookupA_append {α : Type} (xs ys : List (String × α)) (k : String) :
    lookupA (xs ++ ys) k =
      match lookupA xs k with
      | some v => some v
      | none => lookupA ys k := by
  induction xs with
  | nil => simp [lookupA]
  | cons p rest ih =>
    obtain ⟨k1, v⟩ := p
    by_cases h : k1 = k <;> simp [lookupA, h, ih]

/-- Lookup in the part of `a` that `b` does not override. -/
theorem lookupA_filter_not_overridden {α : Type} (a b : List (String × α))
    (k : String) :
    lookupA (a.filter (fun p => (lookupA b p.1).isNone)) k =
      if (lookupA b k).isNone then lookupA a k else none := by
  induction a with
  | nil => simp [lookupA]
  | cons p rest ih =>
    obtain ⟨k1, v⟩ := p
    by_cases h : k1 = k
    · subst h
      by_cases hb : (lookupA b k1).isNone <;>
        simp [lookupA, hb, ih, List.filter]
    · by_cases hb : (lookupA b k1).isNone <;>
        simp [lookupA, h, hb, ih, List.filter]

/-- Lookup after an object spread: the right operand wins, with fallback to
the left. -/
theorem lookupA_jsSpread {α : Type} (a b : List (String × α)) (k : String) :
    lookupA (jsSpread a b) k =
      match lookupA b k with
      | some v => some v
      | none => lookupA a k := by
  unfold jsSpread
  rw [lookupA_append, lookupA_filter_not_overridden]
  cases h : lookupA b k
  · cases lookupA a k <;> simp [h]
  · simp [h]

/-- Lookup commutes with mapping a function over the values. -/
theorem lookupA_map_value {α β : Type} (m : List (String × α)) (f : α → β)
    (k : String) :
    lookupA (m.map (fun p => (p.1, f p.2))) k = (lookupA m k).map f := by
  induction m with
  | nil => simp [lookupA]
  | cons p rest ih =>
    obtain ⟨k1, v⟩ := p
    by_cases h : k1 = k <;> simp [lookupA, h, ih]

/-- A key occurs among the keys of an association list exactly when its
lookup succeeds. -/
theorem mem_keys_lookupA_isSome {α : Type} (m : List (String × α))
    (k : String) (h : k ∈ m.map Prod.fst) : (lookupA m k).isSome = true := by
  induction m with
  | nil => simp at h
  | cons p rest ih =>
    obtain ⟨k1, v⟩ := p
    simp at h
    by_cases hk : k1 = k
    · simp [lookupA, hk]
    · rcases h with h | h
      · exact absurd h.symm hk
      · simp [lookupA, hk]
        exact ih (by simpa using h)

/-- A stopped watcher ignores further wake-ups. -/
theorem informAboutScroll_stopped (s : WatcherState) (m : Measurement)
    (h : s.stopped = true) : informAboutScroll s m = s := by
  simp [informAboutScroll, h]

/-- A stopped watcher stays fixed under any further measurement list. -/
theorem runWatcherFrom_stopped (s : WatcherState) (ms : List Measurement)
    (h : s.stopped = true) : runWatcherFrom s ms = s := by
  induction ms with
  | nil => rfl
  | cons m rest ih =>
    simp [runWatcherFrom, informAboutScroll_stopped s m h, ih]

/-- One watcher step preserves the loop invariant. -/
theorem watcherInv_step (s : WatcherState) (m : Measurement)
    (h : WatcherInv s) : WatcherInv (informAboutScroll s m) := by
  obtain ⟨hlen, hle, hstop, hwarn⟩ := h
  by_cases hs : s.stopped = true
  · rw [informAboutScroll_stopped s m hs]
    exact ⟨hlen, hle, hstop, hwarn⟩
  · have hs2 : s.stopped = false := by
      cases hb : s.stopped
      · rfl
      · exact absurd hb hs
    have hnum : s.numDimensionChanges ≤ 50 := by
      by_contra hgt
      exact hs (hstop.mpr (by omega))
    unfold informAboutScroll
    rw [hs2]
    simp only [WatcherInv, Bool.false_eq_true, if_false]
    split_ifs <;> simp_all [List.length_append]

/-- Running the watcher from any state satisfying the invariant keeps it. -/
theorem watcherInv_runFrom (s : WatcherState) (ms : List Measurement)
    (h : WatcherInv s) : WatcherInv (runWatcherFrom s ms) := by
  induction ms generalizing s with
  | nil => exact h
  | cons m rest ih => exact ih _ (watcherInv_step s m h)

/-- The initial watcher state satisfies the invariant. -/
theorem watcherInv_init : WatcherInv initWatcherState := by
  simp [WatcherInv, initWatcherState]

/-- Any complete watcher run satisfies the invariant. -/
theorem watcherInv_run (ms : List Measurement) : WatcherInv (runWatcher ms) :=
  watcherInv_runFrom initWatcherState ms watcherInv_init

/-- One store operation preserves a non-null namespace and a truthy theme. -/
theorem applyStoreOp_preserves (s : EmbedStore) (op : StoreOp) :
    (∀ v, s.«namespace» = some v → (applyStoreOp s op).«namespace» = some v) ∧
    (∀ t, s.theme = some t → t ≠ "" → (applyStoreOp s op).theme = some t) := by
  cases op with
  | resolveNamespace u =>
    constructor
    · intro v hv
      simp [applyStoreOp, getNamespace, isValidNamespace, hv]
    · intro t ht hne
      by_cases hvalid : isValidNamespace s.«namespace» = true <;>
        simp [applyStoreOp, getNamespace, hvalid, ht]
  | resolveTheme q =>
    constructor
    · intro v hv
      by_cases htr : jsTruthy s.theme = true <;>
        simp [applyStoreOp, useEmbedTheme, htr, hv]
    · intro t ht hne
      have htr : jsTruthy (some t) = true := by simp [jsTruthy, hne]
      simp [applyStoreOp, useEmbedTheme, ht, htr]
  | broadcastStyles cfg =>
    exact ⟨fun v hv => by simp [applyStoreOp, setEmbedStyles, hv],
           fun t ht hne => by simp [applyStoreOp, setEmbedStyles, ht]⟩
  | register n =>
    exact ⟨fun v hv => by simp [applyStoreOp, registerNewSetter, hv],
           fun t ht hne => by simp [applyStoreOp, registerNewSetter, ht]⟩
  | unregister n =>
    exact ⟨fun v hv => by simp [applyStoreOp, removeFromEmbedStylesSetterMap, hv],
           fun t ht hne => by simp [applyStoreOp, removeFromEmbedStylesSetterMap, ht]⟩

/-- A sequence of store operations preserves a non-null namespace and a
truthy theme. -/
theorem applyStoreOps_preserves (ops : List StoreOp) (s : EmbedStore) :
    (∀ v, s.«namespace» = some v →
      (applyStoreOps s ops).«namespace» = some v) ∧
    (∀ t, s.theme = some t → t ≠ "" → (applyStoreOps s ops).theme = some t) := by
  induction ops generalizing s with
  | nil => exact ⟨fun v hv => hv, fun t ht hne => ht⟩
  | cons op rest ih =>
    refine ⟨fun v hv => ?_, fun t ht hne => ?_⟩
    · exact (ih (applyStoreOp s op)).1 v ((applyStoreOp_preserves s op).1 v hv)
    · exact (ih (applyStoreOp s op)).2 t
        ((applyStoreOp_preserves s op).2 t ht hne) hne

/-- A method name found neither among the own keys nor anywhere on the
prototype chain resolves to undefined. -/
theorem methodsLookup_absent (s : String)
    (h : s ∉ methodsObjectPropertyNames) : methodsLookup s = .absent := by
  simp only [methodsObjectPropertyNames, objectPrototypeNonCallableNames,
    objectPrototypeArgRejectingNames, objectPrototypeHarmlessNames,
    List.mem_cons, List.mem_append, List.mem_singleton,
    List.not_mem_nil, or_false, not_or] at h
  simp [methodsLookup, objectPrototypeNonCallableNames,
    objectPrototypeArgRejectingNames, objectPrototypeHarmlessNames, h]

/-- A falsy plan defers the ui instruction. -/
theorem uiMethodStep_falsy (p : Option String) (h : jsTruthy p = false) :
    uiMethodStep p = .deferred := by
  simp [uiMethodStep, h]

/-- The plan "PRO" lets the ui instruction through. -/
theorem uiMethodStep_pro : uiMethodStep (some "PRO") = .applied := by decide

/-- A truthy plan other than "PRO" drops the ui instruction. -/
theorem uiMethodStep_wrongPlan (t : String) (h1 : jsTruthy (some t) = true)
    (h2 : t ≠ "PRO") : uiMethodStep (some t) = .dropped := by
  simp [uiMethodStep, h1, h2]

/-- While the plan flag stays falsy, the ui instruction keeps deferring and
mutates nothing. -/
theorem runUiMethod_all_falsy (store : EmbedStore) (dom : DomState)
    (cfg : UiConfig) (ps : List (Option String))
    (h : ∀ p ∈ ps, jsTruthy p = false) :
    runUiMethod store dom cfg ps = (store, dom, 0) := by
  induction ps with
  | nil => rfl
  | cons p rest ih =>
    have hp : jsTruthy p = false := h p (by simp)
    simp [runUiMethod, uiMethodStep_falsy p hp]
    exact ih (fun q hq => h q (by simp [hq]))

/-- After any falsy prefix, the first "PRO" observation applies the
instruction exactly once and the loop ends. -/
theorem runUiMethod_pro (store : EmbedStore) (dom : DomState)
    (cfg : UiConfig) (ps rest : List (Option String))
    (h : ∀ p ∈ ps, jsTruthy p = false) :
    runUiMethod store dom cfg (ps ++ some "PRO" :: rest) =
      ((uiApply store dom cfg).1, (uiApply store dom cfg).2.1, 1) := by
  induction ps with
  | nil => simp [runUiMethod, uiMethodStep_pro]
  | cons p ps2 ih =>
    have hp : jsTruthy p = false := h p (by simp)
    simp only [List.cons_append, runUiMethod, uiMethodStep_falsy p hp]
    exact ih (fun q hq => h q (by simp [hq]))

/-- After any falsy prefix, a truthy plan below "PRO" drops the instruction
with no mutation and no retry, whatever frames would follow. -/
theorem runUiMethod_wrongPlan (store : EmbedStore) (dom : DomState)
    (cfg : UiConfig) (ps rest : List (Option String)) (t : String)
    (h : ∀ p ∈ ps, jsTruthy p = false) (h1 : jsTruthy (some t) = true)
    (h2 : t ≠ "PRO") :
    runUiMethod store dom cfg (ps ++ some t :: rest) = (store, dom, 0) := by
  induction ps with
  | nil => simp [runUiMethod, uiMethodStep_wrongPlan t h1 h2]
  | cons p ps2 ih =>
    have hp : jsTruthy p = false := h p (by simp)
    simp only [List.cons_append, runUiMethod, uiMethodStep_falsy p hp]
    exact ih (fun q hq => h q (by simp [hq]))

/-- While the informed flag reads false the handshake loop changes
nothing. -/
theorem tryInforming_all_false (s : HandshakeState) (pre : List Bool)
    (h : ∀ b ∈ pre, b = false) : tryInformingLinkReady s pre = s := by
  induction pre with
  | nil => rfl
  | cons b rest ih =>
    have hb : b = false := h b (by simp)
    simp [tryInformingLinkReady, hb]
    exact ih (fun q hq => h q (by simp [hq]))

/-- The first true reading of the informed flag unhides the body and fires
linkReady exactly once, ending the loop. -/
theorem tryInforming_reaches (s : HandshakeState) (pre post : List Bool)
    (h : ∀ b ∈ pre, b = false) :
    tryInformingLinkReady s (pre ++ true :: post) =
      { bodyVisible := true, linkReadyCount := s.linkReadyCount + 1 } := by
  induction pre with
  | nil => simp [tryInformingLinkReady]
  | cons b rest ih =>
    have hb : b = false := h b (by simp)
    simp only [List.cons_append, tryInformingLinkReady, hb]
    simp
    exact ih (fun q hq => h q (by simp [hq]))

set_option maxRecDepth 8192 in
/-- C1 counterexample: over a run whose measured height changes on every
sample, the watcher emits a 51st dimension-changed event (and only then
warns), so the claim that no 51st event is ever fired once the counter has
reached 50 is false on the code. -/
theorem C1_counterexample :
    (runWatcher seqC1).events.length = 51 ∧
    (runWatcher seqC1).warned = true := by decide

/-- C1 (amended): the runaway guard trips only once the change counter has
exceeded 50 — that is, after the 51st emitted change — at which point the
loop stops rescheduling (it ignores all further wake-ups) and emits the
diagnostic warning; the counter, and hence the number of emitted
dimension-changed events, never passes 51, so no 52nd event is ever
fired. -/
theorem C1_runaway_guard (ms ms2 : List Measurement) :
    (runWatcher ms).events.length = (runWatcher ms).numDimensionChanges ∧
    (runWatcher ms).numDimensionChanges ≤ 51 ∧
    ((runWatcher ms).stopped = true ↔
      50 < (runWatcher ms).numDimensionChanges) ∧
    (runWatcher ms).warned = (runWatcher ms).stopped ∧
    ((runWatcher ms).stopped = true →
      runWatcherFrom (runWatcher ms) ms2 = runWatcher ms) := by
  obtain ⟨h1, h2, h3, h4⟩ := watcherInv_run ms
  exact ⟨h1, h2, h3, h4, fun hs => runWatcherFrom_stopped _ ms2 hs⟩

set_option maxRecDepth 8192 in
/-- C1 witness: the guard behaviour evaluated on the concrete 60-sample
ever-changing run, with the stop hypothesis discharged by computation. -/
theorem C1_runaway_guard_witness :
    (runWatcher seqC1).events.length = (runWatcher seqC1).numDimensionChanges ∧
    runWatcherFrom (runWatcher seqC1) [extraMeasurement] = runWatcher seqC1 :=
  ⟨(C1_runaway_guard seqC1 [extraMeasurement]).1,
   (C1_runaway_guard seqC1 [extraMeasurement]).2.2.2.2 (by decide)⟩

/-- C2 counterexample: on the height sequence [500, 500, 500, 800] the
watcher fires two dimension-changed events, not exactly one as claimed
(the first sample always differs from the initial null known height). -/
theorem C2_counterexample :
    (runWatcher seqC2).events.length = 2 ∧
    ¬(runWatcher seqC2).events.length = 1 := by decide

/-- C2 (amended): on the height sequence [500, 500, 500, 800] exactly two
dimension-changed events fire — one on the very first sample with
isFirstTime true, and one on the transition to 800 with isFirstTime false;
isFirstTime is true on the very first emitted sample and false on every
later one. -/
theorem C2_dimension_events :
    (runWatcher seqC2).events =
      [{ iframeHeight := 500, iframeWidth := 400, isFirstTime := true },
       { iframeHeight := 800, iframeWidth := 400, isFirstTime := false }] := by
  decide

/-- C3 counterexample: broadcasting a config that touches only the
list-item target erases the stored body background, whereas the claimed
shallow merge would have kept it — `setEmbedStyles` replaces the stored
config instead of merging into it. -/
theorem C3_counterexample :
    lookupA (setEmbedStyles exStoreC3 exCfgC3).1.styles "body" = none ∧
    lookupA (broadcastMergeSpec exStoreC3.styles exCfgC3) "body" =
      some [("background", "red")] :=
  ⟨rfl, rfl⟩

/-- C3 (amended): a broadcast replaces the stored style config with the new
one, and invokes exactly the currently registered setters — each with an
updater that spreads the new config over that setter's previous state at
target level (whole target slices from the new config win) — so no
unregistered target's callback is ever invoked. -/
theorem C3_broadcast (store : EmbedStore) (cfg : StyleConfig) (t : String) :
    lookupA (setEmbedStyles store cfg).1.styles t = lookupA cfg t ∧
    lookupA (setEmbedStyles store cfg).1.reactStylesStateSetters t =
      (lookupA store.reactStylesStateSetters t).map
        (fun st => jsSpread st cfg) ∧
    (setEmbedStyles store cfg).2 =
      store.reactStylesStateSetters.map Prod.fst ∧
    (t ∈ (setEmbedStyles store cfg).2 →
      (lookupA store.reactStylesStateSetters t).isSome = true) := by
  refine ⟨rfl, ?_, rfl, ?_⟩
  · show lookupA (store.reactStylesStateSetters.map
        (fun p => (p.1, jsSpread p.2 cfg))) t =
      (lookupA store.reactStylesStateSetters t).map (fun st => jsSpread st cfg)
    exact lookupA_map_value store.reactStylesStateSetters
      (fun st => jsSpread st cfg) t
  · intro hmem
    exact mem_keys_lookupA_isSome _ t (by simpa [setEmbedStyles] using hmem)

/-- C3 witness: the broadcast behaviour evaluated on a store with one
registered body setter, the membership hypothesis discharged by
computation. -/
theorem C3_broadcast_witness :
    lookupA (setEmbedStyles exStoreC3 exCfgC3).1.reactStylesStateSetters
        "body" =
      some (jsSpread [("body", [("background", "red")])] exCfgC3) ∧
    (lookupA exStoreC3.reactStylesStateSetters "body").isSome = true := by
  refine ⟨?_, (C3_broadcast exStoreC3 exCfgC3 "body").2.2.2 (by decide)⟩
  rw [(C3_broadcast exStoreC3 exCfgC3 "body").2.1]
  rfl

/-- C4 (confirmed): while the CalComPlan flag stays falsy the ui
instruction keeps deferring and performs no style mutation; once the flag
reads "PRO" its effect is applied exactly once; and when the flag instead
reads a truthy tier other than "PRO" the instruction is dropped silently
with no mutation and never retried, regardless of what follows. -/
theorem C4_ui_plan_gating (store : EmbedStore) (dom : DomState)
    (cfg : UiConfig) :
    (∀ ps : List (Option String), (∀ p ∈ ps, jsTruthy p = false) →
      runUiMethod store dom cfg ps = (store, dom, 0)) ∧
    (∀ ps rest : List (Option String), (∀ p ∈ ps, jsTruthy p = false) →
      runUiMethod store dom cfg (ps ++ some "PRO" :: rest) =
        ((uiApply store dom cfg).1, (uiApply store dom cfg).2.1, 1)) ∧
    (∀ (ps rest : List (Option String)) (t : String),
      (∀ p ∈ ps, jsTruthy p = false) → jsTruthy (some t) = true →
      t ≠ "PRO" →
      runUiMethod store dom cfg (ps ++ some t :: rest) = (store, dom, 0)) :=
  ⟨fun ps h => runUiMethod_all_falsy store dom cfg ps h,
   fun ps rest h => runUiMethod_pro store dom cfg ps rest h,
   fun ps rest t h h1 h2 =>
     runUiMethod_wrongPlan store dom cfg ps rest t h h1 h2⟩

/-- C4 witness: the gating behaviour evaluated with one unset frame
followed by nothing, by "PRO", and by "FREE" respectively. -/
theorem C4_ui_plan_gating_witness :
    runUiMethod initialEmbedStore
        { bodyBackground := none, bodyVisible := false } exUiConfig [none] =
      (initialEmbedStore,
        { bodyBackground := none, bodyVisible := false }, 0) ∧
    runUiMethod initialEmbedStore
        { bodyBackground := none, bodyVisible := false } exUiConfig
        ([none] ++ some "PRO" :: []) =
      ((uiApply initialEmbedStore
          { bodyBackground := none, bodyVisible := false } exUiConfig).1,
       (uiApply initialEmbedStore
          { bodyBackground := none, bodyVisible := false } exUiConfig).2.1,
       1) ∧
    runUiMethod initialEmbedStore
        { bodyBackground := none, bodyVisible := false } exUiConfig
        ([none] ++ some "FREE" :: []) =
      (initialEmbedStore,
        { bodyBackground := none, bodyVisible := false }, 0) :=
  ⟨(C4_ui_plan_gating initialEmbedStore
      { bodyBackground := none, bodyVisible := false } exUiConfig).1
      [none] (by decide),
   (C4_ui_plan_gating initialEmbedStore
      { bodyBackground := none, bodyVisible := false } exUiConfig).2.1
      [none] [] (by decide),
   (C4_ui_plan_gating initialEmbedStore
      { bodyBackground := none, bodyVisible := false } exUiConfig).2.2
      [none] [] "FREE" (by decide) (by decide) (by decide)⟩

/-- C5 counterexample: when the first resolution parses no embed parameter
the stored null is not treated as cached — a second call after the URL
gained an embed parameter returns "foo" instead of the first call's null,
so the claim that every subsequent call returns the cached first result is
false on the code. -/
theorem C5_counterexample :
    (getNamespace initialEmbedStore urlNoParams).1 = none ∧
    (getNamespace (getNamespace initialEmbedStore urlNoParams).2
        urlEmbedFoo).1 = some "foo" :=
  ⟨rfl, rfl⟩

/-- C5 (amended): the first call parses the embed query parameter and
stores the result; when that result is non-null, every subsequent call
returns it and leaves the store unchanged even if the URL has mutated;
when the first result is null it is stored but not treated as cached — a
later call re-parses the then-current URL. -/
theorem C5_namespace_caching (s : EmbedStore) (u u2 : EmbedUrl) :
    (∀ v, (getNamespace s u).1 = some v →
      (getNamespace (getNamespace s u).2 u2).1 = some v ∧
      (getNamespace (getNamespace s u).2 u2).2 = (getNamespace s u).2) ∧
    ((getNamespace s u).1 = none →
      (getNamespace (getNamespace s u).2 u2).1 = u2.embed) := by
  by_cases hvalid : isValidNamespace s.«namespace» = true
  · obtain ⟨w, hw⟩ : ∃ w, s.«namespace» = some w := by
      cases hns : s.«namespace»
      · simp [isValidNamespace, hns] at hvalid
      · exact ⟨_, rfl⟩
    constructor
    · intro v hv
      simp [getNamespace, isValidNamespace, hw] at hv ⊢
      exact hv
    · intro hnone
      simp [getNamespace, isValidNamespace, hw] at hnone
  · have hns : s.«namespace» = none := by
      cases hns : s.«namespace»
      · rfl
      · simp [isValidNamespace, hns] at hvalid
    constructor
    · intro v hv
      simp [getNamespace, isValidNamespace, hns] at hv
      simp [getNamespace, isValidNamespace, hns, hv]
    · intro hnone
      simp [getNamespace, isValidNamespace, hns] at hnone
      simp [getNamespace, isValidNamespace, hns, hnone]

/-- C5 witness: a non-null first resolution of "foo" survives a URL
mutation, and a null first resolution is re-parsed from the mutated URL. -/
theorem C5_namespace_caching_witness :
    (getNamespace (getNamespace initialEmbedStore urlEmbedFoo).2
        urlNoParams).1 = some "foo" ∧
    (getNamespace (getNamespace initialEmbedStore urlNoParams).2
        urlEmbedFoo).1 = urlEmbedFoo.embed :=
  ⟨((C5_namespace_caching initialEmbedStore urlEmbedFoo urlNoParams).1
      "foo" rfl).1,
   (C5_namespace_caching initialEmbedStore urlNoParams urlEmbedFoo).2 rfl⟩

/-- C6 (confirmed): on an embedded, non-prerender load inside an iframe the
bootstrap does not unhide the body; after a parentKnowsIframeReady
instruction starts the handshake loop, the body stays hidden while the
parent-informed flag reads false, and the first true reading makes the
body visible and fires linkReady exactly once, ending the loop. -/
theorem C6_ready_handshake (url : EmbedUrl) (pageStatus : Option String)
    (nsv : String) (pre post : List Bool)
    (hpre : url.prerender ≠ some "true") (hemb : url.embed = some nsv)
    (hflags : ∀ b ∈ pre, b = false) :
    (bootstrap initialEmbedStore url false pageStatus).unhideBodyCalled =
      false ∧
    tryInformingLinkReady
        { bodyVisible := false, linkReadyCount := 0 } pre =
      { bodyVisible := false, linkReadyCount := 0 } ∧
    tryInformingLinkReady
        { bodyVisible := false, linkReadyCount := 0 } (pre ++ true :: post) =
      { bodyVisible := true, linkReadyCount := 1 } := by
  refine ⟨?_, tryInforming_all_false _ pre hflags,
    tryInforming_reaches _ pre post hflags⟩
  simp [bootstrap, hpre, isEmbed, getNamespace, initialEmbedStore,
    isValidNamespace, hemb]

/-- C6 witness: the handshake evaluated on a concrete embedded load with
two not-yet-informed polls before the flag turns true. -/
theorem C6_ready_handshake_witness :
    (bootstrap initialEmbedStore urlEmbedAbc false none).unhideBodyCalled =
      false ∧
    tryInformingLinkReady
        { bodyVisible := false, linkReadyCount := 0 } [false, false] =
      { bodyVisible := false, linkReadyCount := 0 } ∧
    tryInformingLinkReady
        { bodyVisible := false, linkReadyCount := 0 }
        ([false, false] ++ true :: []) =
      { bodyVisible := true, linkReadyCount := 1 } :=
  C6_ready_handshake urlEmbedAbc none "abc" [false, false] []
    (by decide) rfl (by decide)

/-- C7 counterexample: the message with originator "CAL" and the
unrecognized string method "__proto__" is not a no-op — the property read
resolves through the prototype chain to the non-callable
`Object.prototype`, so the optional call throws a TypeError; the claim
that such a message never raises an error is false on the code. -/
theorem C7_counterexample :
    handleMessage
        (some (InMessage.mk (JsVal.vstr "CAL") (JsVal.vstr "__proto__"))) =
      DispatchOutcome.raised ∧
    ¬handleMessage
        (some (InMessage.mk (JsVal.vstr "CAL") (JsVal.vstr "__proto__"))) =
      DispatchOutcome.ignored := by
  refine ⟨rfl, ?_⟩
  intro h
  simp [handleMessage, methodsLookup, objectPrototypeNonCallableNames] at h

/-- C7 (amended): a missing payload, a wrong originator, or a non-string
method produces zero observable effects; with originator "CAL", a string
method found neither among the own handlers nor on the prototype chain is
a silent no-op, and an inherited harmless Object.prototype function runs
without observable effect — but the inherited names that resolve to the
non-callable "__proto__" value or to the argument-rejecting
"__defineGetter__" / "__defineSetter__" functions make the optional call
throw a TypeError, so the dispatcher can raise on an unrecognized string
method. -/
theorem C7_message_filtering :
    handleMessage none = DispatchOutcome.ignored ∧
    (∀ d : InMessage, d.originator ≠ JsVal.vstr "CAL" →
      handleMessage (some d) = DispatchOutcome.ignored) ∧
    (∀ d : InMessage, (∀ s, d.method ≠ JsVal.vstr s) →
      handleMessage (some d) = DispatchOutcome.ignored) ∧
    (∀ d : InMessage, ∀ s, d.method = JsVal.vstr s →
      s ∉ methodsObjectPropertyNames →
      handleMessage (some d) = DispatchOutcome.ignored) ∧
    (∀ d : InMessage, ∀ s, d.method = JsVal.vstr s →
      d.originator = JsVal.vstr "CAL" →
      methodsLookup s = MethodsProp.protoHarmless →
      handleMessage (some d) = DispatchOutcome.inheritedNoOp) ∧
    (∀ d : InMessage, ∀ s, d.method = JsVal.vstr s →
      d.originator = JsVal.vstr "CAL" →
      (methodsLookup s = MethodsProp.protoNonCallable ∨
        methodsLookup s = MethodsProp.protoRejectsArg) →
      handleMessage (some d) = DispatchOutcome.raised) := by
  refine ⟨rfl, ?_, ?_, ?_, ?_, ?_⟩
  · intro d hor
    cases hm : d.method with
    | vstr m => simp [handleMessage, hm, hor]
    | vnum n => simp [handleMessage, hm]
    | vbool b => simp [handleMessage, hm]
    | vnull => simp [handleMessage, hm]
    | vundef => simp [handleMessage, hm]
  · intro d hnem
    cases hm : d.method with
    | vstr m => exact absurd hm (hnem m)
    | vnum n => simp [handleMessage, hm]
    | vbool b => simp [handleMessage, hm]
    | vnull => simp [handleMessage, hm]
    | vundef => simp [handleMessage, hm]
  · intro d m hm habs
    by_cases ho : d.originator = JsVal.vstr "CAL" <;>
      simp [handleMessage, hm, ho, methodsLookup_absent m habs]
  · intro d m hm ho hharm
    simp [handleMessage, hm, ho, hharm]
  · intro d m hm ho hraise
    rcases hraise with hr | hr <;> simp [handleMessage, hm, ho, hr]

/-- C7 witness: the filter evaluated on a wrong-originator message, a
numeric-method message, an unknown-method message, and a message invoking
an inherited harmless function. -/
theorem C7_message_filtering_witness :
    handleMessage
      (some (InMessage.mk (JsVal.vstr "NOTCAL") (JsVal.vstr "ui"))) =
      DispatchOutcome.ignored ∧
    handleMessage
      (some (InMessage.mk (JsVal.vstr "CAL") (JsVal.vnum 3))) =
      DispatchOutcome.ignored ∧
    handleMessage
      (some (InMessage.mk (JsVal.vstr "CAL") (JsVal.vstr "unknownMethod"))) =
      DispatchOutcome.ignored ∧
    handleMessage
      (some (InMessage.mk (JsVal.vstr "CAL") (JsVal.vstr "toString"))) =
      DispatchOutcome.inheritedNoOp :=
  ⟨C7_message_filtering.2.1 _ (by simp),
   C7_message_filtering.2.2.1 _ (fun s h => by simp at h),
   C7_message_filtering.2.2.2.1 _ "unknownMethod" rfl (by decide),
   C7_message_filtering.2.2.2.2.1 _ "toString" rfl rfl (by decide)⟩

/-- C8 counterexample: a theme resolved from an empty-but-present theme
parameter is non-null, yet a later resolution with a different query
overwrites it — the theme field is guarded by truthiness, not by
non-nullness, so the claimed invariant fails on the code. -/
theorem C8_counterexample :
    (useEmbedTheme initialEmbedStore (some "")).2.theme = some "" ∧
    (useEmbedTheme (useEmbedTheme initialEmbedStore (some "")).2
        (some "dark")).2.theme = some "dark" :=
  ⟨rfl, rfl⟩

/-- C8 (amended): over every sequence of store operations, a non-null
namespace never changes, and a non-null, non-empty theme never changes; a
theme cached as the empty string may be overwritten by a later
resolution. -/
theorem C8_once_set_immutable (s : EmbedStore) (ops : List StoreOp) :
    (∀ v, s.«namespace» = some v →
      (applyStoreOps s ops).«namespace» = some v) ∧
    (∀ t, s.theme = some t → t ≠ "" →
      (applyStoreOps s ops).theme = some t) :=
  applyStoreOps_preserves ops s

/-- C8 witness: a store holding namespace "foo" and theme "dark" keeps both
across a namespace re-resolve against an empty URL, a theme re-resolve with
no query value, and a style broadcast. -/
theorem C8_once_set_immutable_witness :
    (applyStoreOps
      { initialEmbedStore with «namespace» := some "foo", theme := some "dark" }
      [StoreOp.resolveNamespace urlNoParams, StoreOp.resolveTheme none,
       StoreOp.broadcastStyles exCfgC3]).«namespace» = some "foo" ∧
    (applyStoreOps
      { initialEmbedStore with «namespace» := some "foo", theme := some "dark" }
      [StoreOp.resolveNamespace urlNoParams, StoreOp.resolveTheme none,
       StoreOp.broadcastStyles exCfgC3]).theme = some "dark" :=
  ⟨(C8_once_set_immutable
      { initialEmbedStore with «namespace» := some "foo", theme := some "dark" }
      [StoreOp.resolveNamespace urlNoParams, StoreOp.resolveTheme none,
       StoreOp.broadcastStyles exCfgC3]).1 "foo" rfl,
   (C8_once_set_immutable
      { initialEmbedStore with «namespace» := some "foo", theme := some "dark" }
      [StoreOp.resolveNamespace urlNoParams, StoreOp.resolveTheme none,
       StoreOp.broadcastStyles exCfgC3]).2 "dark" rfl (by decide)⟩

/-- C9 (confirmed): when the document URL carries prerender=true the
bootstrap guard short-circuits before the namespace is even resolved; the
protocol is not initialized, no listener or forwarder is installed, the
watcher never starts, no event is fired and no protocol message is ever
sent to the parent, and the store is untouched. -/
theorem C9_prerender_suppression (s : EmbedStore) (url : EmbedUrl)
    (isTop : Bool) (pageStatus : Option String)
    (h : url.prerender = some "true") :
    bootstrap s url isTop pageStatus =
      { initialized := false, unhideBodyCalled := false,
        listenerInstalled := false, watcherStarted := false,
        eventsFired := [], messagesSent := [], finalStore := s } := by
  simp [bootstrap, h]

/-- C9 witness: the suppressed bootstrap evaluated on a concrete
prerender=true URL that also carries an embed namespace. -/
theorem C9_prerender_suppression_witness :
    bootstrap initialEmbedStore urlPrerender false none =
      { initialized := false, unhideBodyCalled := false,
        listenerInstalled := false, watcherStarted := false,
        eventsFired := [], messagesSent := [],
        finalStore := initialEmbedStore } :=
  C9_prerender_suppression initialEmbedStore urlPrerender false none rfl

/-- C10 (confirmed): the ui handler never touches the stored theme or the
stored namespace, and its whole effect is determined by the styles field of
its argument alone — two configs differing only in their theme field
produce identical results. -/
theorem C10_ui_ignores_theme (store : EmbedStore) (dom : DomState)
    (cfg : UiConfig) (t1 t2 : Option String) :
    (uiApply store dom cfg).1.theme = store.theme ∧
    (uiApply store dom cfg).1.«namespace» = store.«namespace» ∧
    uiApply store dom { theme := t1, styles := cfg.styles } =
      uiApply store dom { theme := t2, styles := cfg.styles } :=
  ⟨rfl, rfl, rfl⟩
